import Mathlib

/-!
Verification development for the report-builder repository.

The definitions below are a shallow embedding of the calculation-to-SQL
compilation engine:
  * `app/features/calculations/models.py` (calculation definitions and the
    ORM aggregate expression compiler),
  * `app/shared/query_engine.py` (the consolidated-query builder, the
    per-calculation subquery builder, the column-alias transform and result
    materialization),
  * `app/shared/utils.py` (`sanitize_identifier`),
  * `app/features/reports/service.py` (report execution and SQL preview),
  * `app/features/reports/builders/query_builder.py` and
    `filter_builder.py` (the raw-SQL report query builder).

SQL statements are modelled as abstract syntax (records of select columns,
join flags, filter predicates, group-by and order-by clauses) built exactly
the way the Python builders assemble their queries, together with an
evaluator giving the statements relational semantics over an explicit data
warehouse value (lists of deal, tranche and tranchebal rows).
-/

/-- Mirrors `AggregationFunction` in `app/features/calculations/models.py`. -/
inductive AggregationFunction
  | SUM
  | AVG
  | COUNT
  | MIN
  | MAX
  | WEIGHTED_AVG
deriving DecidableEq, BEq

/-- Mirrors `SourceModel` in `app/features/calculations/models.py`. -/
inductive SourceModel
  | DEAL
  | TRANCHE
  | TRANCHE_BAL
deriving DecidableEq, BEq

/-- Mirrors `GroupLevel` in `app/features/calculations/models.py`. -/
inductive GroupLevel
  | DEAL
  | TRANCHE
deriving DecidableEq, BEq

/-- Mirrors the `Calculation` ORM model in
`app/features/calculations/models.py` (the configuration columns consumed by
the query engine; bookkeeping columns such as timestamps are omitted because
no builder reads them).  `weight_field` is nullable in the model, hence an
`Option`. -/
structure Calculation where
  name : String
  aggregation_function : AggregationFunction
  source_model : SourceModel
  source_field : String
  weight_field : Option String
deriving DecidableEq, BEq

/-- The mapped columns of `Deal`, `Tranche` and `TrancheBal` in
`app/datawarehouse/models.py`; `getattr(source_model_class, field)` in
`Calculation.get_sqlalchemy_function` succeeds exactly on these names. -/
def dwModelFields : SourceModel → List String
  | SourceModel.DEAL => ["dl_nbr", "issr_cde", "cdi_file_nme", "CDB_cdi_file_nme"]
  | SourceModel.TRANCHE => ["dl_nbr", "tr_id", "tr_cusip_id"]
  | SourceModel.TRANCHE_BAL =>
      ["dl_nbr", "tr_id", "cycle_cde", "tr_end_bal_amt", "tr_prin_rel_ls_amt",
       "tr_pass_thru_rte", "tr_accrl_days", "tr_int_dstrb_amt",
       "tr_prin_dstrb_amt", "tr_int_accrl_amt", "tr_int_shtfl_amt"]

/-- A reference to one column of one source entity, as produced by
`getattr(source_model_class, field)`. -/
structure FieldRef where
  model : SourceModel
  field : String
deriving DecidableEq, BEq

/-- Row-level SQL expression appearing under an aggregate
(`field` or `field * weight`). -/
inductive ColExpr
  | col (f : FieldRef)
  | mul (a b : ColExpr)
deriving DecidableEq, BEq

/-- Aggregate SQL expression, mirroring the SQLAlchemy expressions built by
`Calculation.get_sqlalchemy_function`: `func.sum`, `func.avg`, `func.count`,
`func.min`, `func.max`, `func.nullif(_, 0)` and division. -/
inductive AggExpr
  | sum (e : ColExpr)
  | avg (e : ColExpr)
  | count (e : ColExpr)
  | min (e : ColExpr)
  | max (e : ColExpr)
  | div (a b : AggExpr)
  | nullif (a : AggExpr) (z : Int)
deriving DecidableEq, BEq

/-- Mirrors `Calculation.get_sqlalchemy_function`
(`app/features/calculations/models.py`, lines 52-85).  The Python raises
`AttributeError` when `getattr` does not find the field on the model class,
and raises `ValueError` for a WEIGHTED_AVG without a weight field (Python
truthiness: `None` and the empty string both fail the `if not
self.weight_field` check); both are modelled as `Except.error`. -/
def Calculation.get_sqlalchemy_function (c : Calculation) : Except String AggExpr :=
  if (dwModelFields c.source_model).contains c.source_field then
    let fld := ColExpr.col ⟨c.source_model, c.source_field⟩
    match c.aggregation_function with
    | AggregationFunction.SUM => Except.ok (AggExpr.sum fld)
    | AggregationFunction.AVG => Except.ok (AggExpr.avg fld)
    | AggregationFunction.COUNT => Except.ok (AggExpr.count fld)
    | AggregationFunction.MIN => Except.ok (AggExpr.min fld)
    | AggregationFunction.MAX => Except.ok (AggExpr.max fld)
    | AggregationFunction.WEIGHTED_AVG =>
      match c.weight_field with
      | none =>
        Except.error
          ("ValueError: Weighted average calculation '" ++ c.name ++ "' requires weight_field")
      | some w =>
        if w = "" then
          Except.error
            ("ValueError: Weighted average calculation '" ++ c.name ++ "' requires weight_field")
        else if (dwModelFields c.source_model).contains w then
          let wfld := ColExpr.col ⟨c.source_model, w⟩
          Except.ok (AggExpr.div (AggExpr.sum (ColExpr.mul fld wfld))
            (AggExpr.nullif (AggExpr.sum wfld) 0))
        else
          Except.error ("AttributeError: " ++ w)
  else
    Except.error ("AttributeError: " ++ c.source_field)

/-- The three data-warehouse entities. -/
inductive DwModel
  | deal
  | tranche
  | tranchebal
deriving DecidableEq, BEq

/-- Mirrors `Calculation.get_required_models`
(`app/features/calculations/models.py`, lines 87-99): start from `[Deal]`,
append `Tranche` when the source model is Tranche or TrancheBal, append
`TrancheBal` when it is TrancheBal. -/
def Calculation.get_required_models (c : Calculation) : List DwModel :=
  let models := [DwModel.deal]
  let models :=
    if c.source_model = SourceModel.TRANCHE ∨ c.source_model = SourceModel.TRANCHE_BAL then
      models ++ [DwModel.tranche]
    else models
  let models :=
    if c.source_model = SourceModel.TRANCHE_BAL then
      models ++ [DwModel.tranchebal]
    else models
  models

/-- Replace each character that is not ASCII-alphanumeric and not an
underscore by an underscore; mirrors
`re.sub(r'[^a-zA-Z0-9_]', '_', name)` in `app/shared/utils.py`. -/
def underscoreNonAlnum (cs : List Char) : List Char :=
  cs.map (fun c => if c.isAlphanum ∨ c = '_' then c else '_')

/-- Collapse every run of consecutive underscores to a single underscore;
mirrors `re.sub(r'_+', '_', sanitized)`. -/
def collapseUnderscores : List Char → List Char
  | [] => []
  | [c] => [c]
  | c1 :: c2 :: rest =>
    if c1 = '_' ∧ c2 = '_' then collapseUnderscores (c2 :: rest)
    else c1 :: collapseUnderscores (c2 :: rest)

/-- Remove leading and trailing underscores; mirrors `sanitized.strip('_')`. -/
def stripUnderscores (cs : List Char) : List Char :=
  ((cs.dropWhile (fun c => c = '_')).reverse.dropWhile (fun c => c = '_')).reverse

/-- Mirrors `sanitize_identifier` in `app/shared/utils.py` (lines 7-18):
non-alphanumeric characters become underscores, runs of underscores collapse,
leading/trailing underscores are stripped, a leading digit forces a `calc_`
prefix, and the empty result falls back to `"calculation"`. -/
def sanitize_identifier (name : String) : String :=
  let sanitized := underscoreNonAlnum name.data
  let sanitized := collapseUnderscores sanitized
  let sanitized := stripUnderscores sanitized
  let sanitized :=
    match sanitized with
    | [] => []
    | c :: rest => if c.isDigit then "calc_".data ++ (c :: rest) else c :: rest
  match sanitized with
  | [] => "calculation"
  | cs => String.mk cs

/-- Mirrors `ReportQueryBuilder._sanitize_calc_name`
(`app/features/reports/builders/query_builder.py`, lines 15-26), which is a
verbatim copy of `sanitize_identifier`. -/
def ReportQueryBuilder_sanitize_calc_name (calc_name : String) : String :=
  let sanitized := underscoreNonAlnum calc_name.data
  let sanitized := collapseUnderscores sanitized
  let sanitized := stripUnderscores sanitized
  let sanitized :=
    match sanitized with
    | [] => []
    | c :: rest => if c.isDigit then "calc_".data ++ (c :: rest) else c :: rest
  match sanitized with
  | [] => "calculation"
  | cs => String.mk cs

/-- Mirrors `QueryEngine._get_calc_column_name`
(`app/shared/query_engine.py`, lines 134-136):
`calc.name.lower().replace(" ", "_").replace("-", "_")`.  Lowercasing each
character first and then replacing the (case-invariant) space and hyphen is
the same as Python's `lower` followed by the two single-character
`replace` calls. -/
def get_calc_column_name (name : String) : String :=
  String.mk (name.data.map (fun c =>
    let lc := c.toLower
    if lc = ' ' ∨ lc = '-' then '_' else lc))

/-- An SQL value: numeric, string, or NULL. -/
inductive SqlVal
  | num (q : ℚ)
  | str (s : String)
  | null
deriving DecidableEq, BEq

/-- A row of the `deal` table (`app/datawarehouse/models.py`). -/
structure DealRow where
  dl_nbr : Int
  issr_cde : String
  cdi_file_nme : String
  CDB_cdi_file_nme : Option String
deriving DecidableEq, BEq

/-- A row of the `tranche` table. -/
structure TrancheRow where
  dl_nbr : Int
  tr_id : String
  tr_cusip_id : String
deriving DecidableEq, BEq

/-- A row of the `tranchebal` table. -/
structure TrancheBalRow where
  dl_nbr : Int
  tr_id : String
  cycle_cde : Int
  tr_end_bal_amt : ℚ
  tr_prin_rel_ls_amt : ℚ
  tr_pass_thru_rte : ℚ
  tr_accrl_days : Int
  tr_int_dstrb_amt : ℚ
  tr_prin_dstrb_amt : ℚ
  tr_int_accrl_amt : ℚ
  tr_int_shtfl_amt : ℚ
deriving DecidableEq, BEq

/-- The data-warehouse state: the contents of the three fact tables. -/
structure DW where
  deals : List DealRow
  tranches : List TrancheRow
  tranchebals : List TrancheBalRow

/-- A row of the three-table FROM clause.  Every query built by the engine
ends up ranging over deal x tranche x tranchebal triples: the consolidated
base query joins all three tables explicitly, and every per-calculation
subquery references all three in its WHERE clause (SQLAlchemy adds a table
referenced only by a filter to the FROM clause implicitly). -/
def JoinedRow : Type := DealRow × TrancheRow × TrancheBalRow

/-- Column access on a joined row, mirroring what the compiled SQL reads for
`getattr(source_model_class, field)`. -/
def getField (r : JoinedRow) (m : SourceModel) (fld : String) : SqlVal :=
  match m with
  | SourceModel.DEAL =>
    if fld = "dl_nbr" then SqlVal.num (r.1.dl_nbr : ℚ)
    else if fld = "issr_cde" then SqlVal.str r.1.issr_cde
    else if fld = "cdi_file_nme" then SqlVal.str r.1.cdi_file_nme
    else if fld = "CDB_cdi_file_nme" then
      match r.1.CDB_cdi_file_nme with
      | some s => SqlVal.str s
      | none => SqlVal.null
    else SqlVal.null
  | SourceModel.TRANCHE =>
    if fld = "dl_nbr" then SqlVal.num (r.2.1.dl_nbr : ℚ)
    else if fld = "tr_id" then SqlVal.str r.2.1.tr_id
    else if fld = "tr_cusip_id" then SqlVal.str r.2.1.tr_cusip_id
    else SqlVal.null
  | SourceModel.TRANCHE_BAL =>
    if fld = "dl_nbr" then SqlVal.num (r.2.2.dl_nbr : ℚ)
    else if fld = "tr_id" then SqlVal.str r.2.2.tr_id
    else if fld = "cycle_cde" then SqlVal.num (r.2.2.cycle_cde : ℚ)
    else if fld = "tr_end_bal_amt" then SqlVal.num r.2.2.tr_end_bal_amt
    else if fld = "tr_prin_rel_ls_amt" then SqlVal.num r.2.2.tr_prin_rel_ls_amt
    else if fld = "tr_pass_thru_rte" then SqlVal.num r.2.2.tr_pass_thru_rte
    else if fld = "tr_accrl_days" then SqlVal.num (r.2.2.tr_accrl_days : ℚ)
    else if fld = "tr_int_dstrb_amt" then SqlVal.num r.2.2.tr_int_dstrb_amt
    else if fld = "tr_prin_dstrb_amt" then SqlVal.num r.2.2.tr_prin_dstrb_amt
    else if fld = "tr_int_accrl_amt" then SqlVal.num r.2.2.tr_int_accrl_amt
    else if fld = "tr_int_shtfl_amt" then SqlVal.num r.2.2.tr_int_shtfl_amt
    else SqlVal.null

/-- Evaluate a row-level expression; multiplying anything with a non-numeric
operand yields NULL, as in SQL. -/
def evalColExpr : ColExpr → JoinedRow → SqlVal
  | ColExpr.col f, r => getField r f.model f.field
  | ColExpr.mul a b, r =>
    match evalColExpr a r, evalColExpr b r with
    | SqlVal.num x, SqlVal.num y => SqlVal.num (x * y)
    | _, _ => SqlVal.null

/-- The numeric values of an expression over a group, NULLs skipped (SQL
aggregates ignore NULL inputs). -/
def numVals (e : ColExpr) (rows : List JoinedRow) : List ℚ :=
  rows.filterMap (fun r =>
    match evalColExpr e r with
    | SqlVal.num q => some q
    | _ => none)

/-- Evaluate an aggregate expression over one group of rows with SQL
semantics: SUM/AVG/MIN/MAX of an all-NULL input are NULL, COUNT counts the
non-NULL inputs, NULLIF(x, z) is NULL when x = z, x / NULL and NULL / x are
NULL, and division by zero yields NULL (SQLite semantics). -/
def evalAggExpr : AggExpr → List JoinedRow → SqlVal
  | AggExpr.sum e, rows =>
    match numVals e rows with
    | [] => SqlVal.null
    | vs => SqlVal.num (vs.foldl (· + ·) 0)
  | AggExpr.avg e, rows =>
    match numVals e rows with
    | [] => SqlVal.null
    | vs => SqlVal.num ((vs.foldl (· + ·) 0) / (vs.length : ℚ))
  | AggExpr.count e, rows =>
    SqlVal.num ((numVals e rows).length : ℚ)
  | AggExpr.min e, rows =>
    match numVals e rows with
    | [] => SqlVal.null
    | v :: vs => SqlVal.num (vs.foldl (fun a b => if b < a then b else a) v)
  | AggExpr.max e, rows =>
    match numVals e rows with
    | [] => SqlVal.null
    | v :: vs => SqlVal.num (vs.foldl (fun a b => if a < b then b else a) v)
  | AggExpr.div a b, rows =>
    match evalAggExpr a rows, evalAggExpr b rows with
    | SqlVal.num x, SqlVal.num y => if y = 0 then SqlVal.null else SqlVal.num (x / y)
    | _, _ => SqlVal.null
  | AggExpr.nullif a z, rows =>
    match evalAggExpr a rows with
    | SqlVal.num x => if x = (z : ℚ) then SqlVal.null else SqlVal.num x
    | v => v

/-- A WHERE-clause predicate of the ORM queries.  The three filters the
engine applies are `Deal.dl_nbr.in_(deal_numbers)`,
`Tranche.tr_id.in_(tranche_ids)` and `TrancheBal.cycle_cde == cycle_code`. -/
inductive WherePred
  | dealNbrIn (deal_numbers : List Int)
  | trancheIdIn (tranche_ids : List String)
  | cycleCdeEq (cycle_code : Int)
deriving DecidableEq, BEq

/-- Abstract syntax of one per-calculation aggregate subquery as assembled by
`QueryEngine._build_calculation_subquery` (and, at deal level with a
different alias transform, by
`ReportService._generate_orm_deal_level_query`). -/
structure SubqueryAST where
  aggregation_level : String
  selectKeys : List String
  aggExpr : AggExpr
  aggAlias : String
  joinTranche : Bool
  joinTrancheBal : Bool
  fromTables : List DwModel
  filters : List WherePred
  groupBy : List String
deriving DecidableEq, BEq

/-- Mirrors `QueryEngine._build_calculation_subquery`
(`app/shared/query_engine.py`, lines 86-132).  The SELECT carries the grain
key columns and the aggregate labelled with `_get_calc_column_name`; Tranche
and TrancheBal are JOINed exactly when `get_required_models` lists them; the
three filters are applied unconditionally (`.filter(...)` three times, with
no test of the join path), so a table that was not JOINed but is referenced
by a filter still enters the FROM clause — SQLAlchemy adds such tables to
the FROM list implicitly (as a cross product), which is why `fromTables`
always holds all three tables.  `get_sqlalchemy_function` can raise, and the
exception propagates. -/
def QueryEngine_build_calculation_subquery (c : Calculation) (deal_numbers : List Int)
    (tranche_ids : List String) (cycle_code : Int) (aggregation_level : String) :
    Except String SubqueryAST :=
  match c.get_sqlalchemy_function with
  | Except.error e => Except.error e
  | Except.ok agg =>
    let required_models := c.get_required_models
    Except.ok
      { aggregation_level := aggregation_level
        selectKeys :=
          if aggregation_level = "tranche" then ["calc_deal_nbr", "calc_tranche_id"]
          else ["calc_deal_nbr"]
        aggExpr := agg
        aggAlias := get_calc_column_name c.name
        joinTranche := required_models.contains DwModel.tranche
        joinTrancheBal := required_models.contains DwModel.tranchebal
        fromTables := [DwModel.deal, DwModel.tranche, DwModel.tranchebal]
        filters :=
          [WherePred.dealNbrIn deal_numbers, WherePred.trancheIdIn tranche_ids,
           WherePred.cycleCdeEq cycle_code]
        groupBy :=
          if aggregation_level = "tranche" then ["dl_nbr", "tr_id"] else ["dl_nbr"] }

/-- Abstract syntax of the consolidated statement assembled by
`QueryEngine.build_consolidated_query`: the base Deal-Tranche-TrancheBal
join, one LEFT-JOINed pre-aggregated subquery per calculation,
`calcColumns` pairing the subquery column picked up by each LEFT JOIN with
the final output label, the three filters, the grain GROUP BY, and the
(absent) ORDER BY. -/
structure ConsolidatedAST where
  aggregation_level : String
  baseSelect : List String
  subqueries : List SubqueryAST
  calcColumns : List (String × String)
  filters : List WherePred
  groupBy : List String
  orderBy : List String
  isDistinct : Bool
deriving DecidableEq, BEq

/-- The per-calculation loop of `QueryEngine.build_consolidated_query`
(lines 49-72): for each calculation, build its subquery, LEFT JOIN it, and
`add_columns` the subquery column labelled with the calculation's name.
Exceptions from subquery construction propagate. -/
def buildCalcJoins (deal_numbers : List Int) (tranche_ids : List String)
    (cycle_code : Int) (aggregation_level : String) :
    List Calculation → Except String (List SubqueryAST × List (String × String))
  | [] => Except.ok ([], [])
  | c :: rest =>
    match QueryEngine_build_calculation_subquery c deal_numbers tranche_ids cycle_code
        aggregation_level with
    | Except.error e => Except.error e
    | Except.ok sub =>
      match buildCalcJoins deal_numbers tranche_ids cycle_code aggregation_level rest with
      | Except.error e => Except.error e
      | Except.ok (subs, cols) =>
        Except.ok (sub :: subs, (get_calc_column_name c.name, c.name) :: cols)

/-- Mirrors `QueryEngine.build_consolidated_query`
(`app/shared/query_engine.py`, lines 19-84): base SELECT of the grain key
labels, INNER JOIN Deal-Tranche-TrancheBal, one LEFT-JOINed subquery and one
added column per calculation, the three filters, GROUP BY the grain columns,
`.distinct()`, and no `order_by` call anywhere. -/
def QueryEngine_build_consolidated_query (deal_numbers : List Int)
    (tranche_ids : List String) (cycle_code : Int) (calculations : List Calculation)
    (aggregation_level : String) : Except String ConsolidatedAST :=
  match buildCalcJoins deal_numbers tranche_ids cycle_code aggregation_level calculations with
  | Except.error e => Except.error e
  | Except.ok (subs, cols) =>
    Except.ok
      { aggregation_level := aggregation_level
        baseSelect :=
          if aggregation_level = "tranche" then ["deal_number", "tranche_id", "cycle_code"]
          else ["deal_number", "cycle_code"]
        subqueries := subs
        calcColumns := cols
        filters :=
          [WherePred.dealNbrIn deal_numbers, WherePred.trancheIdIn tranche_ids,
           WherePred.cycleCdeEq cycle_code]
        groupBy :=
          if aggregation_level = "tranche" then ["dl_nbr", "tr_id", "cycle_cde"]
          else ["dl_nbr", "cycle_cde"]
        orderBy := []
        isDistinct := true }

/-- The alias transform of `ReportService._generate_orm_deal_level_query`
(`app/features/reports/service.py`, line 599):
`calc.name.lower().replace(" ", "_")` — unlike
`QueryEngine._get_calc_column_name` it does not replace hyphens. -/
def service_calc_alias (name : String) : String :=
  String.mk (name.data.map (fun c =>
    let lc := c.toLower
    if lc = ' ' then '_' else lc))

/-- The per-calculation loop of `ReportService._generate_orm_deal_level_query`
(lines 594-625): deal-grain subqueries with the service's own alias
transform, LEFT JOINed on `Deal.dl_nbr` and added as columns labelled with
the calculation name. -/
def serviceCalcJoins (deal_numbers : List Int) (tranche_ids : List String)
    (cycle_code : Int) :
    List Calculation → Except String (List SubqueryAST × List (String × String))
  | [] => Except.ok ([], [])
  | c :: rest =>
    match c.get_sqlalchemy_function with
    | Except.error e => Except.error e
    | Except.ok agg =>
      let required_models := c.get_required_models
      let sub : SubqueryAST :=
        { aggregation_level := "deal"
          selectKeys := ["calc_deal_nbr"]
          aggExpr := agg
          aggAlias := service_calc_alias c.name
          joinTranche := required_models.contains DwModel.tranche
          joinTrancheBal := required_models.contains DwModel.tranchebal
          fromTables := [DwModel.deal, DwModel.tranche, DwModel.tranchebal]
          filters :=
            [WherePred.dealNbrIn deal_numbers, WherePred.trancheIdIn tranche_ids,
             WherePred.cycleCdeEq cycle_code]
          groupBy := ["dl_nbr"] }
      match serviceCalcJoins deal_numbers tranche_ids cycle_code rest with
      | Except.error e => Except.error e
      | Except.ok (subs, cols) =>
        Except.ok (sub :: subs, (service_calc_alias c.name, c.name) :: cols)

/-- Mirrors `ReportService._generate_orm_deal_level_query`
(`app/features/reports/service.py`, lines 579-644): the consolidated
deal-level statement rendered by the report SQL preview (the comment banner
wrapped around the compiled SQL text is not part of the statement itself). -/
def ReportService_generate_orm_deal_level_query (deal_numbers : List Int)
    (tranche_ids : List String) (cycle_code : Int) (calculations : List Calculation) :
    Except String ConsolidatedAST :=
  match serviceCalcJoins deal_numbers tranche_ids cycle_code calculations with
  | Except.error e => Except.error e
  | Except.ok (subs, cols) =>
    Except.ok
      { aggregation_level := "deal"
        baseSelect := ["deal_number", "cycle_code"]
        subqueries := subs
        calcColumns := cols
        filters :=
          [WherePred.dealNbrIn deal_numbers, WherePred.trancheIdIn tranche_ids,
           WherePred.cycleCdeEq cycle_code]
        groupBy := ["dl_nbr", "cycle_cde"]
        orderBy := []
        isDistinct := true }

/-- All deal x tranche x tranchebal triples: the row space of the three-table
FROM clause before any join condition or filter. -/
def allTriples (db : DW) : List JoinedRow :=
  db.deals.flatMap (fun d => db.tranches.flatMap (fun t => db.tranchebals.map (fun tb => (d, t, tb))))

/-- Semantics of one WHERE predicate on a joined row. -/
def evalPred : WherePred → JoinedRow → Bool
  | WherePred.dealNbrIn l, r => decide (r.1.dl_nbr ∈ l)
  | WherePred.trancheIdIn l, r => decide (r.2.1.tr_id ∈ l)
  | WherePred.cycleCdeEq c, r => decide (r.2.2.cycle_cde = c)

/-- Conjunction of WHERE predicates. -/
def evalPreds (ps : List WherePred) (r : JoinedRow) : Bool :=
  ps.all (fun p => evalPred p r)

/-- Grain key produced by a subquery's SELECT/GROUP BY:
`(Deal.dl_nbr)` at deal level, `(Deal.dl_nbr, Tranche.tr_id)` at tranche
level (the tranche component is `none` at deal level). -/
def subKey (aggregation_level : String) (r : JoinedRow) : Int × Option String :=
  (r.1.dl_nbr, if aggregation_level = "tranche" then some r.2.1.tr_id else none)

/-- Grouping key of the consolidated statement:
`GROUP BY Deal.dl_nbr[, Tranche.tr_id], TrancheBal.cycle_cde`. -/
def groupKey (aggregation_level : String) (r : JoinedRow) :
    Int × Option String × Int :=
  (r.1.dl_nbr,
   if aggregation_level = "tranche" then some r.2.1.tr_id else none,
   r.2.2.cycle_cde)

/-- The row source of a per-calculation subquery: the JOIN conditions are
enforced only for the tables the builder actually JOINs; a table that is
present only because a filter references it contributes a cross product, and
the three filters always apply. -/
def subquerySourceRows (db : DW) (s : SubqueryAST) : List JoinedRow :=
  (allTriples db).filter (fun r =>
    (!s.joinTranche || decide (r.1.dl_nbr = r.2.1.dl_nbr)) &&
    (!s.joinTrancheBal ||
      (decide (r.2.1.dl_nbr = r.2.2.dl_nbr) && decide (r.2.1.tr_id = r.2.2.tr_id))) &&
    evalPreds s.filters r)

/-- Evaluate a per-calculation subquery: one `(grain key, aggregate value)`
row per distinct grain key of the filtered source. -/
def evalSubqueryAST (db : DW) (s : SubqueryAST) :
    List ((Int × Option String) × SqlVal) :=
  let src := subquerySourceRows db s
  ((src.map (subKey s.aggregation_level)).dedup).map (fun k =>
    (k, evalAggExpr s.aggExpr (src.filter (fun r => decide (subKey s.aggregation_level r = k)))))

/-- LEFT (outer) join of the accumulated base rows with one subquery's rows
on equality of the grain key: a base row with no key match survives with a
NULL calculation value, a base row with matches is paired with each of
them. -/
def leftJoinCalc (rows : List (JoinedRow × List SqlVal))
    (subRows : List ((Int × Option String) × SqlVal)) (aggregation_level : String) :
    List (JoinedRow × List SqlVal) :=
  rows.flatMap (fun rv =>
    let ms := subRows.filter (fun kv => decide (kv.1 = subKey aggregation_level rv.1))
    if ms.isEmpty then [(rv.1, rv.2 ++ [SqlVal.null])]
    else ms.map (fun kv => (rv.1, rv.2 ++ [kv.2])))

/-- The base FROM/JOIN clause of the consolidated statement:
`Deal JOIN Tranche ON dl_nbr JOIN TrancheBal ON (dl_nbr, tr_id)`. -/
def basePreJoinRows (db : DW) : List JoinedRow :=
  (allTriples db).filter (fun r =>
    decide (r.1.dl_nbr = r.2.1.dl_nbr) &&
    (decide (r.2.1.dl_nbr = r.2.2.dl_nbr) && decide (r.2.1.tr_id = r.2.2.tr_id)))

/-- The consolidated statement's row source after the per-calculation LEFT
JOINs: each base-join row paired with the list of joined calculation values,
one per subquery, in subquery order. -/
def consolidatedJoinedRows (db : DW) (ast : ConsolidatedAST) :
    List (JoinedRow × List SqlVal) :=
  ast.subqueries.foldl
    (fun rows s => leftJoinCalc rows (evalSubqueryAST db s) ast.aggregation_level)
    ((basePreJoinRows db).map (fun r => (r, ([] : List SqlVal))))

/-- The consolidated statement's row source after its WHERE clause (the
filters reference only base-table columns). -/
def consolidatedFilteredRows (db : DW) (ast : ConsolidatedAST) :
    List (JoinedRow × List SqlVal) :=
  (consolidatedJoinedRows db ast).filter (fun rv => evalPreds ast.filters rv.1)

/-- The distinct grouping keys of the consolidated statement
(GROUP BY + DISTINCT). -/
def consolidatedKeys (db : DW) (ast : ConsolidatedAST) :
    List (Int × Option String × Int) :=
  ((consolidatedFilteredRows db ast).map
    (fun rv => groupKey ast.aggregation_level rv.1)).dedup

/-- The calculation values reported for one group: those of a representative
row of the group (they are functionally determined by the grain key, because
every subquery is pre-aggregated to that key, so the representative is
immaterial). -/
def consolidatedGroupVals (db : DW) (ast : ConsolidatedAST)
    (k : Int × Option String × Int) : List SqlVal :=
  match (consolidatedFilteredRows db ast).find?
      (fun rv => decide (groupKey ast.aggregation_level rv.1 = k)) with
  | some rv => rv.2
  | none => []

/-- Evaluate the consolidated statement: LEFT JOIN each subquery in order
onto the base join, apply the filters, and produce one output row per
distinct grouping key carrying that group's calculation values. -/
def evalConsolidatedAST (db : DW) (ast : ConsolidatedAST) :
    List ((Int × Option String × Int) × List SqlVal) :=
  (consolidatedKeys db ast).map (fun k => (k, consolidatedGroupVals db ast k))

/-- The base grain enumeration: the distinct grouping keys of the filtered
`Deal JOIN Tranche JOIN TrancheBal` rows — the consolidated query with no
calculations, and also the `base_results` statement that
`ReportService._execute_deal_level_report` runs first. -/
def evalBaseEnumKeys (db : DW) (deal_numbers : List Int) (tranche_ids : List String)
    (cycle_code : Int) (aggregation_level : String) :
    List (Int × Option String × Int) :=
  (((basePreJoinRows db).filter (fun r =>
      evalPreds
        [WherePred.dealNbrIn deal_numbers, WherePred.trancheIdIn tranche_ids,
         WherePred.cycleCdeEq cycle_code] r)).map
    (groupKey aggregation_level)).dedup

/-- A raw result row as seen by `QueryEngine.process_report_results`: the
base labelled columns plus one attribute per calculation column (`calcVals`
associates the column label with the value; a label missing from the list
models a column the statement did not produce, for which Python's
`getattr(result, name, None)` falls back to `None`). -/
structure ResultRow where
  deal_number : Int
  tranche_id : String
  cycle_code : Int
  calcVals : List (String × SqlVal)
deriving DecidableEq, BEq

/-- `getattr(result, name, None)`: the value of the named column, NULL when
the row has no such column. -/
def resultGetattr (r : ResultRow) (name : String) : SqlVal :=
  match r.calcVals.find? (fun p => decide (p.1 = name)) with
  | some p => p.2
  | none => SqlVal.null

/-- Python `dict` assignment `d[k] = v`: replace the value in place when the
key is present, append otherwise. -/
def dictInsert (l : List (String × SqlVal)) (k : String) (v : SqlVal) :
    List (String × SqlVal) :=
  if l.any (fun p => decide (p.1 = k)) then
    l.map (fun p => if p.1 = k then (k, v) else p)
  else l ++ [(k, v)]

/-- A structured report row (`ReportRow` in
`app/features/reports/schemas.py`): `tr_id` is present only for
tranche-level reports; `values` is the calculation-name-keyed map. -/
structure ReportRow where
  dl_nbr : Int
  tr_id : Option String
  cycle_cde : Int
  values : List (String × SqlVal)
deriving DecidableEq, BEq

/-- Mirrors `QueryEngine.process_report_results`
(`app/shared/query_engine.py`, lines 299-333): each raw row becomes a
`ReportRow` whose `values` dict is filled by looping over the calculations
in order with `values[calc.name] = getattr(result, calc.name, None)`. -/
def process_report_results (results : List ResultRow) (calculations : List Calculation)
    (aggregation_level : String) : List ReportRow :=
  results.map (fun result =>
    let values := calculations.foldl
      (fun acc c => dictInsert acc c.name (resultGetattr result c.name)) []
    { dl_nbr := result.deal_number
      tr_id := if aggregation_level = "tranche" then some result.tranche_id else none
      cycle_cde := result.cycle_code
      values := values })

/-- The `(dl_nbr, cycle_cde)` rows of the distinct base query that
`ReportService._execute_deal_level_report` runs first (lines 331-342). -/
def evalBaseEnumDealRows (db : DW) (deal_numbers : List Int)
    (tranche_ids : List String) (cycle_code : Int) : List (Int × Int) :=
  (evalBaseEnumKeys db deal_numbers tranche_ids cycle_code "deal").map
    (fun k => (k.1, k.2.2))

/-- A statement issued against the data warehouse by the report feature:
the distinct base-enumeration statement and the per-(row, calculation)
scalar aggregate statement of `ReportService._execute_deal_level_report`,
and the single consolidated statement rendered by
`ReportService.preview_report_sql`. -/
inductive ExecutedStmt
  | baseEnumDealStmt (deal_numbers : List Int) (tranche_ids : List String) (cycle_code : Int)
  | scalarCalcStmt (c : Calculation) (dl_nbr : Int) (tranche_ids : List String) (cycle_code : Int)
  | consolidatedStmt (ast : ConsolidatedAST)
deriving DecidableEq, BEq

/-- The sequence of statements `ReportService.execute_report` actually sends
to the warehouse for a deal-level report (lines 270-278 and 320-383): first
the distinct base enumeration, then — looping over the base result rows and,
inside, over the calculations — one scalar aggregate statement per (row,
calculation) pair. -/
def executedStatementsDealLevel (db : DW) (deal_numbers : List Int)
    (tranche_ids : List String) (cycle_code : Int) (calculations : List Calculation) :
    List ExecutedStmt :=
  ExecutedStmt.baseEnumDealStmt deal_numbers tranche_ids cycle_code ::
  (evalBaseEnumDealRows db deal_numbers tranche_ids cycle_code).flatMap (fun p =>
    calculations.map (fun c => ExecutedStmt.scalarCalcStmt c p.1 tranche_ids p.2))

/-- The single statement whose compiled text
`ReportService.preview_report_sql` renders for a deal-level report (lines
546-548 delegate to `_generate_orm_deal_level_query`). -/
def previewReportStatementDealLevel (deal_numbers : List Int) (tranche_ids : List String)
    (cycle_code : Int) (calculations : List Calculation) : Except String ExecutedStmt :=
  match ReportService_generate_orm_deal_level_query deal_numbers tranche_ids cycle_code
      calculations with
  | Except.error e => Except.error e
  | Except.ok ast => Except.ok (ExecutedStmt.consolidatedStmt ast)

/-- Mirrors the row loop of `ReportService._execute_deal_level_report`
(lines 344-383): for each base row, each calculation's scalar statement is
run inside `try/except` — a failure is caught, printed, and recorded as
`None` for just that calculation, after which the loop continues and the row
is still emitted.  `scalar` is the warehouse boundary: the outcome of the
scalar aggregate statement for a given (deal, cycle, calculation). -/
def execDealLevelRows (base_results : List (Int × Int)) (calculations : List Calculation)
    (scalar : Int → Int → Calculation → Except String SqlVal) : List ReportRow :=
  base_results.map (fun p =>
    let values := calculations.foldl
      (fun acc c =>
        match scalar p.1 p.2 c with
        | Except.ok v => dictInsert acc c.name v
        | Except.error _ => dictInsert acc c.name SqlVal.null) []
    { dl_nbr := p.1, tr_id := none, cycle_cde := p.2, values := values })

/-- The execution-log record written by `ReportService._log_execution`. -/
structure ExecLog where
  success : Bool
  row_count : Nat
deriving DecidableEq, BEq

instance {ε α : Type} [DecidableEq ε] [DecidableEq α] : DecidableEq (Except ε α) :=
  fun a b =>
    match a, b with
    | Except.ok x, Except.ok y =>
      if h : x = y then isTrue (by rw [h])
      else isFalse (fun hh => h (Except.ok.inj hh))
    | Except.error x, Except.error y =>
      if h : x = y then isTrue (by rw [h])
      else isFalse (fun hh => h (Except.error.inj hh))
    | Except.ok _, Except.error _ => isFalse (fun hh => Except.noConfusion hh)
    | Except.error _, Except.ok _ => isFalse (fun hh => Except.noConfusion hh)

/-- Outcome of `ReportService.execute_report`: the log record it writes and
the value it returns or the error it raises. -/
structure ExecOutcome where
  log : ExecLog
  result : Except String (List ReportRow)
deriving DecidableEq

/-- Mirrors the error structure of `ReportService.execute_report` (lines
238-318) for a deal-level report: a failure of the base-enumeration
statement escapes `_execute_deal_level_report`, is caught by the outer
`except`, logged as a failed execution with `row_count=0`, and re-raised as
`ReportGenerationError`; per-calculation scalar failures never reach the
outer handler (they are swallowed inside the row loop), so the execution is
logged successful with the full row count. -/
def ReportService_execute_report (base_result : Except String (List (Int × Int)))
    (calculations : List Calculation)
    (scalar : Int → Int → Calculation → Except String SqlVal) : ExecOutcome :=
  match base_result with
  | Except.error e =>
    { log := { success := false, row_count := 0 }
      result := Except.error ("Report execution failed: " ++ e) }
  | Except.ok base_results =>
    let data := execDealLevelRows base_results calculations scalar
    { log := { success := true, row_count := data.length }
      result := Except.ok data }

/-- A bound-parameter value of the raw-SQL builder. -/
inductive SqlParamVal
  | int (v : Int)
  | str (v : String)
deriving DecidableEq, BEq

/-- Mirrors `FilterBuilder.add_deal_filter`
(`app/features/reports/builders/filter_builder.py`, lines 13-24). -/
def FilterBuilder_add_deal_filter (selected_deals : List Int) :
    String × List (String × SqlParamVal) :=
  if selected_deals = [] then ("", [])
  else
    let idx := List.range selected_deals.length
    ("d.dl_nbr IN (" ++ String.intercalate ", " (idx.map (fun i => ":deal_" ++ toString i)) ++ ")",
     (idx.zip selected_deals).map (fun p => ("deal_" ++ toString p.1, SqlParamVal.int p.2)))

/-- Mirrors `FilterBuilder.add_tranche_filter` (lines 26-37). -/
def FilterBuilder_add_tranche_filter (selected_tranches : List String) :
    String × List (String × SqlParamVal) :=
  if selected_tranches = [] then ("", [])
  else
    let idx := List.range selected_tranches.length
    ("t.tr_id IN (" ++ String.intercalate ", " (idx.map (fun i => ":tranche_" ++ toString i)) ++ ")",
     (idx.zip selected_tranches).map (fun p => ("tranche_" ++ toString p.1, SqlParamVal.str p.2)))

/-- Mirrors `FilterBuilder.add_cycle_filter` (lines 39-45); Python truthiness
makes cycle code 0 behave like "no filter". -/
def FilterBuilder_add_cycle_filter (cycle_code : Int) :
    String × List (String × SqlParamVal) :=
  if cycle_code = 0 then ("", [])
  else ("tb.cycle_cde = :cycle_code", [("cycle_code", SqlParamVal.int cycle_code)])

/-- Mirrors `FilterBuilder.build_where_clause` (lines 91-131) for the three
core filters (the report paths pass no `additional_filters`): conditions are
collected in deal, tranche, cycle order and joined with AND under a leading
WHERE; no conditions yield the empty string. -/
def FilterBuilder_build_where_clause (selected_deals : List Int)
    (selected_tranches : List String) (cycle_code : Int) :
    String × List (String × SqlParamVal) :=
  let dealPart :=
    if selected_deals ≠ [] then [FilterBuilder_add_deal_filter selected_deals] else []
  let tranchePart :=
    if selected_tranches ≠ [] then [FilterBuilder_add_tranche_filter selected_tranches] else []
  let cyclePart :=
    if cycle_code ≠ 0 then [FilterBuilder_add_cycle_filter cycle_code] else []
  let parts := dealPart ++ tranchePart ++ cyclePart
  let conditions := (parts.map Prod.fst).filter (fun s => s ≠ "")
  let params := parts.flatMap Prod.snd
  (if conditions ≠ [] then "WHERE " ++ String.intercalate " AND " conditions else "",
   params)

/-- A calculation configuration dict as consumed by `ReportQueryBuilder`
(`name`, `formula`, `source_tables`, `group_level`). -/
structure CalcConfig where
  name : String
  formula : String
  source_tables : List String
  group_level : String
deriving DecidableEq, BEq

/-- The structured content of the subquery string built by
`ReportQueryBuilder.build_calculation_subquery`
(`app/features/reports/builders/query_builder.py`, lines 28-65); the
indentation whitespace of the Python triple-quoted literal is normalized to
single newlines. -/
structure SubquerySQL where
  group_by_fields : List String
  formula : String
  calcAlias : String
  from_clause : String
  where_clause : String
deriving DecidableEq, BEq

/-- Mirrors `ReportQueryBuilder.build_calculation_subquery`: tranche-level
grouping keys when the calculation's `group_level` is `tranche`, deal-level
keys otherwise; INNER JOIN `tranche` when any source table starts with
`tranche` (which includes `tranchebal ...` entries), INNER JOIN `tranchebal`
when any source table starts with `tranchebal`; the aggregate column is
aliased with `_sanitize_calc_name`. -/
def ReportQueryBuilder_build_calculation_subquery (c : CalcConfig)
    (where_clause : String) : SubquerySQL :=
  let from_clause := "FROM deal d"
  let from_clause :=
    if c.source_tables.any (fun t => t.startsWith "tranche") then
      from_clause ++ "\nINNER JOIN tranche t ON d.dl_nbr = t.dl_nbr"
    else from_clause
  let from_clause :=
    if c.source_tables.any (fun t => t.startsWith "tranchebal") then
      from_clause ++ "\nINNER JOIN tranchebal tb ON t.dl_nbr = tb.dl_nbr AND t.tr_id = tb.tr_id"
    else from_clause
  { group_by_fields :=
      if c.group_level = "tranche" then ["d.dl_nbr", "t.tr_id", "tb.cycle_cde"]
      else ["d.dl_nbr", "tb.cycle_cde"]
    formula := c.formula
    calcAlias := ReportQueryBuilder_sanitize_calc_name c.name
    from_clause := from_clause
    where_clause := where_clause }

/-- The structured content of the main report query string assembled by
`ReportQueryBuilder.build_report_query` (lines 67-150): the SELECT fields,
the LEFT-JOIN main FROM clause, one LEFT JOIN clause per calculation (the
subquery, its `calc_<name>` alias and its ON condition), the WHERE clause,
the GROUP BY list, the ORDER BY clause, and the bound parameters. -/
structure MainQuerySQL where
  select_fields : List String
  main_from : String
  join_clauses : List (SubquerySQL × String × String)
  where_clause : String
  group_by : String
  order_by : String
  params : List (String × SqlParamVal)
deriving DecidableEq, BEq

/-- Mirrors `ReportQueryBuilder.build_report_query`: the main grain SELECT
and LEFT-JOIN chain, per-calculation LEFT JOINs of INNER-JOIN subqueries
with the display name as a quoted final alias, the shared WHERE clause, the
grain GROUP BY and the deterministic
`ORDER BY d.dl_nbr[, t.tr_id], tb.cycle_cde`. -/
def ReportQueryBuilder_build_report_query (calculations : List CalcConfig)
    (aggregation_level : String) (selected_deals : List Int)
    (selected_tranches : List String) (cycle_code : Int) : MainQuerySQL :=
  let wc := FilterBuilder_build_where_clause selected_deals selected_tranches cycle_code
  let main_select :=
    if aggregation_level = "tranche" then "d.dl_nbr, t.tr_id, tb.cycle_cde"
    else "d.dl_nbr, tb.cycle_cde"
  let main_from :=
    "FROM deal d\nLEFT JOIN tranche t ON d.dl_nbr = t.dl_nbr\nLEFT JOIN tranchebal tb ON t.dl_nbr = tb.dl_nbr AND t.tr_id = tb.tr_id"
  let main_group_by :=
    if aggregation_level = "tranche" then "d.dl_nbr, t.tr_id, tb.cycle_cde"
    else "d.dl_nbr, tb.cycle_cde"
  let calcSelects := calculations.map (fun c =>
    let s := ReportQueryBuilder_sanitize_calc_name c.name
    "calc_" ++ s ++ "." ++ s ++ " as \"" ++ c.name ++ "\"")
  let join_clauses := calculations.map (fun c =>
    let s := ReportQueryBuilder_sanitize_calc_name c.name
    let join_condition :=
      if aggregation_level = "tranche" then
        "d.dl_nbr = calc_" ++ s ++ ".dl_nbr AND t.tr_id = calc_" ++ s ++
          ".tr_id AND tb.cycle_cde = calc_" ++ s ++ ".cycle_cde"
      else
        "d.dl_nbr = calc_" ++ s ++ ".dl_nbr AND tb.cycle_cde = calc_" ++ s ++ ".cycle_cde"
    (ReportQueryBuilder_build_calculation_subquery c wc.1, "calc_" ++ s, join_condition))
  { select_fields := main_select :: calcSelects
    main_from := main_from
    join_clauses := join_clauses
    where_clause := wc.1
    group_by := main_group_by
    order_by :=
      "ORDER BY d.dl_nbr" ++ (if aggregation_level = "tranche" then ", t.tr_id" else "") ++
        ", tb.cycle_cde"
    params := wc.2 }

/-- The exception taxonomy of `app/core/exceptions.py`. -/
inductive AppError
  | calculationNotFound (msg : String)
  | calculationAlreadyExists (msg : String)
  | invalidCalculation (msg : String)
  | reportGeneration (msg : String)
  | dataWarehouse (msg : String)
  | configuration (msg : String)
deriving DecidableEq, BEq

/-- The create/update request schema of the id-based calculations API
(`CalculationCreateRequest`), declared by
`app/features/calculations/__init__.py` and consumed by
`app/features/calculations/router.py`. -/
structure CalculationCreateRequest where
  name : String
  aggregation_function : AggregationFunction
  source_model : SourceModel
  source_field : String
  weight_field : Option String
  group_level : GroupLevel
deriving DecidableEq, BEq

/-- Modelled from the spec: the validating constructor of the id-based
`CalculationService` (the service variant importing
`CalculationCreateRequest` that `app/features/calculations/router.py` calls
and whose `InvalidCalculationError` the router maps to HTTP 400) is not
present under `src/`; per the spec, a WEIGHTED_AVG definition without a
weight field, or a source/weight field that is not a recognized field of the
source entity, fails with `InvalidCalculationError` at validation time,
before any SQL compilation.  An empty-string weight field is treated like an
absent one (Python truthiness). -/
def CalculationService_validate_calculation (req : CalculationCreateRequest) :
    Except AppError Calculation :=
  if req.aggregation_function = AggregationFunction.WEIGHTED_AVG ∧
      (req.weight_field = none ∨ req.weight_field = some "") then
    Except.error (AppError.invalidCalculation
      ("Weighted average calculation '" ++ req.name ++ "' requires weight_field"))
  else if ¬ (dwModelFields req.source_model).contains req.source_field then
    Except.error (AppError.invalidCalculation
      ("Field '" ++ req.source_field ++ "' is not a field of the source model"))
  else
    match req.weight_field with
    | some w =>
      if (dwModelFields req.source_model).contains w then
        Except.ok
          { name := req.name
            aggregation_function := req.aggregation_function
            source_model := req.source_model
            source_field := req.source_field
            weight_field := req.weight_field }
      else
        Except.error (AppError.invalidCalculation
          ("Field '" ++ w ++ "' is not a field of the source model"))
    | none =>
      Except.ok
        { name := req.name
          aggregation_function := req.aggregation_function
          source_model := req.source_model
          source_field := req.source_field
          weight_field := req.weight_field }

/-- Concrete warehouse fixture: deal 101 with tranches A and B and one
balance row each in cycle 202404 (the spec's scenario data). -/
def dealW : DealRow :=
  { dl_nbr := 101, issr_cde := "ISSR1", cdi_file_nme := "FILE1", CDB_cdi_file_nme := none }

def trancheA : TrancheRow := { dl_nbr := 101, tr_id := "A", tr_cusip_id := "CUSIPA" }

def trancheB : TrancheRow := { dl_nbr := 101, tr_id := "B", tr_cusip_id := "CUSIPB" }

def balA : TrancheBalRow :=
  { dl_nbr := 101, tr_id := "A", cycle_cde := 202404, tr_end_bal_amt := 100,
    tr_prin_rel_ls_amt := 0, tr_pass_thru_rte := 2 / 100, tr_accrl_days := 30,
    tr_int_dstrb_amt := 1, tr_prin_dstrb_amt := 2, tr_int_accrl_amt := 3,
    tr_int_shtfl_amt := 0 }

def balB : TrancheBalRow :=
  { dl_nbr := 101, tr_id := "B", cycle_cde := 202404, tr_end_bal_amt := 50,
    tr_prin_rel_ls_amt := 0, tr_pass_thru_rte := 4 / 100, tr_accrl_days := 30,
    tr_int_dstrb_amt := 1, tr_prin_dstrb_amt := 2, tr_int_accrl_amt := 3,
    tr_int_shtfl_amt := 0 }

def dbW : DW := { deals := [dealW], tranches := [trancheA, trancheB], tranchebals := [balA, balB] }

/-- A Deal-sourced calculation (COUNT of deal numbers). -/
def calcDealCount : Calculation :=
  { name := "Deal Count", aggregation_function := AggregationFunction.COUNT,
    source_model := SourceModel.DEAL, source_field := "dl_nbr", weight_field := none }

/-- A TrancheBal-sourced calculation (SUM of ending balances). -/
def calcBalSum : Calculation :=
  { name := "Total Ending Balance", aggregation_function := AggregationFunction.SUM,
    source_model := SourceModel.TRANCHE_BAL, source_field := "tr_end_bal_amt",
    weight_field := none }

/-- A weighted-average calculation with a weight field. -/
def calcWeighted : Calculation :=
  { name := "Weighted Avg Rate", aggregation_function := AggregationFunction.WEIGHTED_AVG,
    source_model := SourceModel.TRANCHE_BAL, source_field := "tr_pass_thru_rte",
    weight_field := some "tr_end_bal_amt" }

/-- A calculation whose display name starts with a digit and contains a
percent sign and a space. -/
def calcPctRate : Calculation :=
  { name := "3% Rate", aggregation_function := AggregationFunction.AVG,
    source_model := SourceModel.TRANCHE_BAL, source_field := "tr_pass_thru_rte",
    weight_field := none }

def calcA8 : Calculation :=
  { name := "Calc A", aggregation_function := AggregationFunction.SUM,
    source_model := SourceModel.TRANCHE_BAL, source_field := "tr_end_bal_amt",
    weight_field := none }

def calcB8 : Calculation :=
  { name := "Calc B", aggregation_function := AggregationFunction.AVG,
    source_model := SourceModel.TRANCHE_BAL, source_field := "tr_pass_thru_rte",
    weight_field := none }

/-- A warehouse boundary on which the scalar statement of `Calc B` fails
with a database error while every other scalar statement succeeds. -/
def scalar8 : Int → Int → Calculation → Except String SqlVal :=
  fun _ _ c =>
    if c.name = "Calc B" then Except.error "database error" else Except.ok (SqlVal.num 5)

/-- Two joined rows whose weight column (`tr_end_bal_amt`) totals zero. -/
def zeroWeightRows : List JoinedRow :=
  [(dealW, trancheA, { balA with tr_end_bal_amt := 0 }),
   (dealW, trancheB, { balB with tr_end_bal_amt := 0 })]

/-- A WEIGHTED_AVG create request with no weight field. -/
def reqBadWeighted : CalculationCreateRequest :=
  { name := "Weighted Avg Rate", aggregation_function := AggregationFunction.WEIGHTED_AVG,
    source_model := SourceModel.TRANCHE_BAL, source_field := "tr_pass_thru_rte",
    weight_field := none, group_level := GroupLevel.DEAL }

/-- A raw result row that carries a value for `Deal Count` but no column at
all for `Total Ending Balance`. -/
def resultRowW : ResultRow :=
  { deal_number := 101, tranche_id := "A", cycle_code := 202404,
    calcVals := [("Deal Count", SqlVal.num 1)] }

def fallbackConsolidatedAST : ConsolidatedAST :=
  { aggregation_level := "", baseSelect := [], subqueries := [], calcColumns := [],
    filters := [], groupBy := [], orderBy := [], isDistinct := false }

/-- The consolidated statement compiled for the heterogeneous two-calculation
deal-level report over the fixture filter. -/
def astC2 : ConsolidatedAST :=
  match QueryEngine_build_consolidated_query [101] ["A", "B"] 202404
      [calcDealCount, calcBalSum] "deal" with
  | Except.ok a => a
  | Except.error _ => fallbackConsolidatedAST

/-- The consolidated statement compiled at tranche level for the single
SUM calculation over the fixture filter. -/
def astC6 : ConsolidatedAST :=
  match QueryEngine_build_consolidated_query [101] ["A", "B"] 202404
      [calcBalSum] "tranche" with
  | Except.ok a => a
  | Except.error _ => fallbackConsolidatedAST

/-- The consolidated statement the report SQL preview renders for the
single-calculation deal-level report over the fixture filter. -/
def astC1 : ConsolidatedAST :=
  match ReportService_generate_orm_deal_level_query [101] ["A", "B"] 202404
      [calcBalSum] with
  | Except.ok a => a
  | Except.error _ => fallbackConsolidatedAST

def fallbackSubqueryAST : SubqueryAST :=
  { aggregation_level := "", selectKeys := [],
    aggExpr := AggExpr.count (ColExpr.col ⟨SourceModel.DEAL, ""⟩), aggAlias := "",
    joinTranche := false, joinTrancheBal := false, fromTables := [], filters := [],
    groupBy := [] }

/-- The subquery compiled at tranche level for the SUM calculation over the
fixture filter. -/
def astC5 : SubqueryAST :=
  match QueryEngine_build_calculation_subquery calcBalSum [101] ["A"] 202404 "tranche" with
  | Except.ok a => a
  | Except.error _ => fallbackSubqueryAST

theorem map_fst_keyed (keys : List (Int × Option String))
    (f : (Int × Option String) → SqlVal) :
    ((keys.dedup.map (fun k => (k, f k))).map Prod.fst).Nodup := by
  rw [List.map_map]
  have hid : (Prod.fst ∘ fun k => (k, f k)) = id := rfl
  rw [hid, List.map_id]
  exact List.nodup_dedup _

theorem map_fst_evalSubquery (db : DW) (s : SubqueryAST) :
    ((evalSubqueryAST db s).map Prod.fst).Nodup :=
  map_fst_keyed _ _

theorem filter_eq_key_length_le_one {α β : Type} [DecidableEq α]
    (l : List (α × β)) (k : α) (h : (l.map Prod.fst).Nodup) :
    (l.filter (fun p => decide (p.1 = k))).length ≤ 1 := by
  induction l with
  | nil => simp
  | cons p t ih =>
    simp only [List.map_cons, List.nodup_cons] at h
    by_cases hp : p.1 = k
    · have ht : t.filter (fun q => decide (q.1 = k)) = [] := by
        rw [List.filter_eq_nil_iff]
        intro q hq hqk
        exact h.1 (hp ▸ (of_decide_eq_true hqk) ▸ List.mem_map_of_mem Prod.fst hq)
      simp [List.filter_cons, hp, ht]
    · simp only [List.filter_cons, decide_eq_true_eq, hp, if_false]
      exact ih h.2

theorem map_fst_leftJoinCalc (rows : List (JoinedRow × List SqlVal))
    (subRows : List ((Int × Option String) × SqlVal)) (lvl : String)
    (h : (subRows.map Prod.fst).Nodup) :
    (leftJoinCalc rows subRows lvl).map Prod.fst = rows.map Prod.fst := by
  induction rows with
  | nil => rfl
  | cons rv t ih =>
    unfold leftJoinCalc at ih ⊢
    simp only [List.flatMap_cons, List.map_append, ih, List.map_cons]
    by_cases he :
        (subRows.filter (fun kv => decide (kv.1 = subKey lvl rv.1))).isEmpty
    · simp [he]
    · have hlen := filter_eq_key_length_le_one subRows (subKey lvl rv.1) h
      rcases hms : subRows.filter (fun kv => decide (kv.1 = subKey lvl rv.1)) with
        _ | ⟨x, _ | ⟨y, t2⟩⟩
      · rw [hms] at he
        simp at he
      · simp [hms]
      · rw [hms] at hlen
        simp at hlen

theorem map_fst_foldJoins (db : DW) (lvl : String) (subs : List SubqueryAST) :
    ∀ rows : List (JoinedRow × List SqlVal),
    ((subs.foldl (fun rs s => leftJoinCalc rs (evalSubqueryAST db s) lvl) rows).map
      Prod.fst) = rows.map Prod.fst := by
  induction subs with
  | nil => intro rows; rfl
  | cons s t ih =>
    intro rows
    simp only [List.foldl_cons]
    rw [ih, map_fst_leftJoinCalc _ _ _ (map_fst_evalSubquery db s)]

theorem map_fst_filter_fst {α β : Type} (l : List (α × β)) (p : α → Bool) :
    ((l.filter (fun x => p x.1)).map Prod.fst) = (l.map Prod.fst).filter p := by
  induction l with
  | nil => rfl
  | cons x t ih =>
    by_cases h : p x.1 <;> simp [List.filter_cons, h, ih]

theorem map_fst_consolidatedJoinedRows (db : DW) (ast : ConsolidatedAST) :
    (consolidatedJoinedRows db ast).map Prod.fst = basePreJoinRows db := by
  unfold consolidatedJoinedRows
  rw [map_fst_foldJoins, List.map_map]
  exact List.map_id _

theorem map_fst_consolidatedFilteredRows (db : DW) (ast : ConsolidatedAST) :
    (consolidatedFilteredRows db ast).map Prod.fst
      = (basePreJoinRows db).filter (fun r => evalPreds ast.filters r) := by
  unfold consolidatedFilteredRows
  rw [map_fst_filter_fst, map_fst_consolidatedJoinedRows]

theorem evalConsolidated_keys (db : DW) (ast : ConsolidatedAST) :
    (evalConsolidatedAST db ast).map Prod.fst
      = (((basePreJoinRows db).filter (fun r => evalPreds ast.filters r)).map
          (groupKey ast.aggregation_level)).dedup := by
  unfold evalConsolidatedAST
  rw [List.map_map]
  have hid : (Prod.fst ∘ fun k => (k, consolidatedGroupVals db ast k)) = id := rfl
  rw [hid, List.map_id]
  unfold consolidatedKeys
  rw [← map_fst_consolidatedFilteredRows db ast, List.map_map]
  rfl

/-- C2: for every warehouse state, filter and list of calculations — of any
size and any mix of source entities — the consolidated query compiled by
`QueryEngine.build_consolidated_query` returns exactly the grain rows of the
base grain enumeration for the same filter and grain: LEFT-joining the
pre-aggregated per-calculation subqueries never adds or removes a grain row,
so the row count is independent of the calculation count. -/
theorem consolidated_no_fanout (db : DW) (deal_numbers : List Int)
    (tranche_ids : List String) (cycle_code : Int) (calculations : List Calculation)
    (aggregation_level : String) (ast : ConsolidatedAST)
    (h : QueryEngine_build_consolidated_query deal_numbers tranche_ids cycle_code
        calculations aggregation_level = Except.ok ast) :
    (evalConsolidatedAST db ast).map Prod.fst
        = evalBaseEnumKeys db deal_numbers tranche_ids cycle_code aggregation_level ∧
      (evalConsolidatedAST db ast).length
        = (evalBaseEnumKeys db deal_numbers tranche_ids cycle_code aggregation_level).length := by
  have hfl : ast.filters
        = [WherePred.dealNbrIn deal_numbers, WherePred.trancheIdIn tranche_ids,
           WherePred.cycleCdeEq cycle_code] ∧
      ast.aggregation_level = aggregation_level := by
    unfold QueryEngine_build_consolidated_query at h
    rcases hb : buildCalcJoins deal_numbers tranche_ids cycle_code aggregation_level
        calculations with e | pr
    · rw [hb] at h
      exact absurd h (by simp)
    · rw [hb] at h
      obtain ⟨subs, cols⟩ := pr
      have hr := Except.ok.inj h
      rw [← hr]
      exact ⟨rfl, rfl⟩
  have hk := evalConsolidated_keys db ast
  rw [hfl.1, hfl.2] at hk
  unfold evalBaseEnumKeys
  refine ⟨hk, ?_⟩
  calc (evalConsolidatedAST db ast).length
      = ((evalConsolidatedAST db ast).map Prod.fst).length := (List.length_map _ _).symm
    _ = _ := congrArg List.length hk

theorem consolidated_no_fanout_witness :
    QueryEngine_build_consolidated_query [101] ["A", "B"] 202404
        [calcDealCount, calcBalSum] "deal" = Except.ok astC2 ∧
      ((evalConsolidatedAST dbW astC2).map Prod.fst
          = evalBaseEnumKeys dbW [101] ["A", "B"] 202404 "deal" ∧
        (evalConsolidatedAST dbW astC2).length
          = (evalBaseEnumKeys dbW [101] ["A", "B"] 202404 "deal").length) :=
  ⟨by decide,
   consolidated_no_fanout dbW [101] ["A", "B"] 202404 [calcDealCount, calcBalSum]
     "deal" astC2 (by decide)⟩

theorem evalAgg_sum_shape (e : ColExpr) (rows : List JoinedRow) :
    evalAggExpr (AggExpr.sum e) rows = SqlVal.null ∨
      ∃ q : ℚ, evalAggExpr (AggExpr.sum e) rows = SqlVal.num q := by
  simp only [evalAggExpr]
  cases hnv : numVals e rows with
  | nil => exact Or.inl rfl
  | cons v vs => exact Or.inr ⟨_, rfl⟩

theorem nullif_sum_unfold (e : ColExpr) (rows : List JoinedRow) :
    evalAggExpr (AggExpr.nullif (AggExpr.sum e) 0) rows
      = match evalAggExpr (AggExpr.sum e) rows with
        | SqlVal.num x => if x = ((0 : Int) : ℚ) then SqlVal.null else SqlVal.num x
        | v => v := rfl

theorem nullif_sum_ne_zero (e : ColExpr) (rows : List JoinedRow) :
    evalAggExpr (AggExpr.nullif (AggExpr.sum e) 0) rows ≠ SqlVal.num 0 := by
  rw [nullif_sum_unfold]
  rcases evalAgg_sum_shape e rows with hs | ⟨q, hs⟩
  · rw [hs]
    simp
  · rw [hs]
    by_cases hq : q = 0
    · simp [hq]
    · simp [hq]

theorem nullif_sum_zero_null (e : ColExpr) (rows : List JoinedRow)
    (h : evalAggExpr (AggExpr.sum e) rows = SqlVal.num 0) :
    evalAggExpr (AggExpr.nullif (AggExpr.sum e) 0) rows = SqlVal.null := by
  rw [nullif_sum_unfold, h]
  simp

theorem evalAgg_div_null_right (a b : AggExpr) (rows : List JoinedRow)
    (h : evalAggExpr b rows = SqlVal.null) :
    evalAggExpr (AggExpr.div a b) rows = SqlVal.null := by
  have hu : evalAggExpr (AggExpr.div a b) rows
      = match evalAggExpr a rows, evalAggExpr b rows with
        | SqlVal.num x, SqlVal.num y =>
          if y = 0 then SqlVal.null else SqlVal.num (x / y)
        | _, _ => SqlVal.null := rfl
  rw [hu, h]
  rcases evalAggExpr a rows <;> rfl

/-- C3: for every WEIGHTED_AVG calculation with a weight field (a non-empty
name recognized on the source entity, as validated definitions have), the
compiled aggregate expression is `SUM(field * weight) / NULLIF(SUM(weight),
0)`; whenever the total weight over the filtered group is zero the value is
NULL, and a division by zero is unreachable because the NULLIF denominator
is never the numeral zero. -/
theorem weighted_avg_null_safety (c : Calculation) (w : String)
    (hagg : c.aggregation_function = AggregationFunction.WEIGHTED_AVG)
    (hw : c.weight_field = some w) (hne : w ≠ "")
    (hsf : (dwModelFields c.source_model).contains c.source_field = true)
    (hwf : (dwModelFields c.source_model).contains w = true) :
    c.get_sqlalchemy_function
        = Except.ok (AggExpr.div
            (AggExpr.sum (ColExpr.mul (ColExpr.col ⟨c.source_model, c.source_field⟩)
              (ColExpr.col ⟨c.source_model, w⟩)))
            (AggExpr.nullif (AggExpr.sum (ColExpr.col ⟨c.source_model, w⟩)) 0)) ∧
      (∀ rows : List JoinedRow,
        evalAggExpr (AggExpr.sum (ColExpr.col ⟨c.source_model, w⟩)) rows = SqlVal.num 0 →
          evalAggExpr (AggExpr.div
            (AggExpr.sum (ColExpr.mul (ColExpr.col ⟨c.source_model, c.source_field⟩)
              (ColExpr.col ⟨c.source_model, w⟩)))
            (AggExpr.nullif (AggExpr.sum (ColExpr.col ⟨c.source_model, w⟩)) 0)) rows
            = SqlVal.null) ∧
      (∀ rows : List JoinedRow,
        evalAggExpr (AggExpr.nullif (AggExpr.sum (ColExpr.col ⟨c.source_model, w⟩)) 0) rows
          ≠ SqlVal.num 0) := by
  refine ⟨?_, ?_, ?_⟩
  · unfold Calculation.get_sqlalchemy_function
    rw [hagg, hw, hsf]
    have hwf2 : w ∈ dwModelFields c.source_model := by
      simpa using hwf
    simp [hne, hwf2]
  · intro rows hz
    exact evalAgg_div_null_right _ _ rows (nullif_sum_zero_null _ rows hz)
  · intro rows
    exact nullif_sum_ne_zero _ rows

theorem weighted_avg_null_safety_witness :
    (calcWeighted.aggregation_function = AggregationFunction.WEIGHTED_AVG ∧
      calcWeighted.weight_field = some "tr_end_bal_amt" ∧
      "tr_end_bal_amt" ≠ "" ∧
      (dwModelFields calcWeighted.source_model).contains calcWeighted.source_field = true ∧
      (dwModelFields calcWeighted.source_model).contains "tr_end_bal_amt" = true ∧
      evalAggExpr (AggExpr.sum (ColExpr.col ⟨calcWeighted.source_model, "tr_end_bal_amt"⟩))
        zeroWeightRows = SqlVal.num 0) ∧
    evalAggExpr (AggExpr.div
        (AggExpr.sum (ColExpr.mul
          (ColExpr.col ⟨calcWeighted.source_model, calcWeighted.source_field⟩)
          (ColExpr.col ⟨calcWeighted.source_model, "tr_end_bal_amt"⟩)))
        (AggExpr.nullif
          (AggExpr.sum (ColExpr.col ⟨calcWeighted.source_model, "tr_end_bal_amt"⟩)) 0))
      zeroWeightRows = SqlVal.null :=
  ⟨⟨rfl, rfl, by decide, by decide, by decide,
    by
      simp only [calcWeighted, evalAggExpr, numVals, zeroWeightRows, dealW, trancheA,
        trancheB, balA, balB, List.filterMap_cons, List.filterMap_nil, evalColExpr,
        getField, String.reduceEq, reduceIte]
      norm_num⟩,
   ((weighted_avg_null_safety calcWeighted "tr_end_bal_amt" rfl rfl (by decide) (by decide)
      (by decide)).2.1) zeroWeightRows
    (by
      simp only [calcWeighted, evalAggExpr, numVals, zeroWeightRows, dealW, trancheA,
        trancheB, balA, balB, List.filterMap_cons, List.filterMap_nil, evalColExpr,
        getField, String.reduceEq, reduceIte]
      norm_num)⟩

/-- C4: for all inputs, constructing a WEIGHTED_AVG calculation definition
without a weight field fails with `InvalidCalculationError` at validation
time, and no `Calculation` value is produced, so the invalid definition
never reaches the subquery compiler. -/
theorem weighted_avg_validation_gate (req : CalculationCreateRequest)
    (hagg : req.aggregation_function = AggregationFunction.WEIGHTED_AVG)
    (hw : req.weight_field = none) :
    CalculationService_validate_calculation req
        = Except.error (AppError.invalidCalculation
            ("Weighted average calculation '" ++ req.name ++ "' requires weight_field")) ∧
      ∀ c : Calculation, CalculationService_validate_calculation req ≠ Except.ok c := by
  have h1 : CalculationService_validate_calculation req
      = Except.error (AppError.invalidCalculation
          ("Weighted average calculation '" ++ req.name ++ "' requires weight_field")) := by
    unfold CalculationService_validate_calculation
    rw [if_pos ⟨hagg, Or.inl hw⟩]
  exact ⟨h1, fun c hc => by rw [h1] at hc; exact Except.noConfusion hc⟩

theorem weighted_avg_validation_gate_witness :
    (reqBadWeighted.aggregation_function = AggregationFunction.WEIGHTED_AVG ∧
      reqBadWeighted.weight_field = none) ∧
    (CalculationService_validate_calculation reqBadWeighted
        = Except.error (AppError.invalidCalculation
            ("Weighted average calculation '" ++ reqBadWeighted.name ++
              "' requires weight_field")) ∧
      ∀ c : Calculation,
        CalculationService_validate_calculation reqBadWeighted ≠ Except.ok c) :=
  ⟨⟨rfl, rfl⟩, weighted_avg_validation_gate reqBadWeighted rfl rfl⟩

/-- C7: the join-path resolver is a pure total function of the source
entity with no error case: `[Deal]` for Deal, `[Deal, Tranche]` for Tranche,
`[Deal, Tranche, TrancheBal]` for TrancheBal. -/
theorem join_path_resolver_total (c : Calculation) :
    c.get_required_models
      = (match c.source_model with
         | SourceModel.DEAL => [DwModel.deal]
         | SourceModel.TRANCHE => [DwModel.deal, DwModel.tranche]
         | SourceModel.TRANCHE_BAL =>
            [DwModel.deal, DwModel.tranche, DwModel.tranchebal]) := by
  cases h : c.source_model <;> simp [Calculation.get_required_models, h]

/-- C5 (amended): every per-calculation subquery applies all three WHERE
predicates unconditionally — deal-number, tranche-id and cycle-code — no
matter the calculation's join path; only the explicit JOINs follow the join
path, and a table referenced solely by a filter still enters the FROM clause
(implicitly, as a cross product), so even a Deal-sourced calculation's
subquery involves the Tranche and TrancheBal tables and their predicates. -/
theorem subquery_where_unconditional (c : Calculation) (deal_numbers : List Int)
    (tranche_ids : List String) (cycle_code : Int) (aggregation_level : String)
    (ast : SubqueryAST)
    (h : QueryEngine_build_calculation_subquery c deal_numbers tranche_ids cycle_code
        aggregation_level = Except.ok ast) :
    ast.filters
        = [WherePred.dealNbrIn deal_numbers, WherePred.trancheIdIn tranche_ids,
           WherePred.cycleCdeEq cycle_code] ∧
      (ast.joinTranche = true ↔
        (c.source_model = SourceModel.TRANCHE ∨ c.source_model = SourceModel.TRANCHE_BAL)) ∧
      (ast.joinTrancheBal = true ↔ c.source_model = SourceModel.TRANCHE_BAL) ∧
      ast.fromTables = [DwModel.deal, DwModel.tranche, DwModel.tranchebal] := by
  unfold QueryEngine_build_calculation_subquery at h
  rcases hf : c.get_sqlalchemy_function with e | agg
  · rw [hf] at h
    exact absurd h (by simp)
  · rw [hf] at h
    have hr := Except.ok.inj h
    rw [← hr]
    refine ⟨rfl, ?_, ?_, rfl⟩
    · show (c.get_required_models).contains DwModel.tranche = true ↔ _
      cases hs : c.source_model <;>
        simp only [Calculation.get_required_models, hs] <;> decide
    · show (c.get_required_models).contains DwModel.tranchebal = true ↔ _
      cases hs : c.source_model <;>
        simp only [Calculation.get_required_models, hs] <;> decide

theorem subquery_where_unconditional_witness :
    QueryEngine_build_calculation_subquery calcBalSum [101] ["A"] 202404 "tranche"
        = Except.ok astC5 ∧
    (astC5.filters
        = [WherePred.dealNbrIn [101], WherePred.trancheIdIn ["A"],
           WherePred.cycleCdeEq 202404] ∧
      (astC5.joinTranche = true ↔
        (calcBalSum.source_model = SourceModel.TRANCHE ∨
          calcBalSum.source_model = SourceModel.TRANCHE_BAL)) ∧
      (astC5.joinTrancheBal = true ↔ calcBalSum.source_model = SourceModel.TRANCHE_BAL) ∧
      astC5.fromTables = [DwModel.deal, DwModel.tranche, DwModel.tranchebal]) :=
  ⟨by decide,
   subquery_where_unconditional calcBalSum [101] ["A"] 202404 "tranche" astC5 (by decide)⟩

/-- C5 counterexample: for the Deal-sourced calculation `Deal Count` the
compiled subquery's WHERE clause does contain the tranche-id and cycle-code
predicates, and its FROM clause involves the Tranche and TrancheBal tables —
contradicting the claim that neither predicate nor table is involved for a
calculation sourced from Deal alone. -/
theorem subquery_deal_only_counterexample :
    (QueryEngine_build_calculation_subquery calcDealCount [101] ["A"] 202404 "deal").map
        (fun a => a.filters)
      = Except.ok [WherePred.dealNbrIn [101], WherePred.trancheIdIn ["A"],
          WherePred.cycleCdeEq 202404] ∧
    (QueryEngine_build_calculation_subquery calcDealCount [101] ["A"] 202404 "deal").map
        (fun a => a.filters)
      ≠ Except.ok [WherePred.dealNbrIn [101]] ∧
    (QueryEngine_build_calculation_subquery calcDealCount [101] ["A"] 202404 "deal").map
        (fun a => a.fromTables)
      = Except.ok [DwModel.deal, DwModel.tranche, DwModel.tranchebal] :=
  ⟨by decide, by decide, by decide⟩

/-- C6 counterexample: the consolidated statement compiled by
`QueryEngine.build_consolidated_query` at tranche level for a concrete
filter and calculation has an empty ORDER BY clause, so it is not ordered by
deal number, tranche id and cycle code (nor by anything else). -/
theorem consolidated_no_order_by_counterexample :
    (QueryEngine_build_consolidated_query [101] ["A", "B"] 202404 [calcBalSum]
        "tranche").map (fun a => a.orderBy) = Except.ok [] ∧
    (Except.ok ([] : List String) : Except String (List String))
      ≠ Except.ok ["deal_number", "tranche_id", "cycle_code"] :=
  ⟨by decide, by decide⟩

/-- C6 (amended): the ORM-compiled consolidated statement imposes no ORDER
BY clause at all, so its result order is unspecified; the deterministic
ordering by deal number, then tranche id (at tranche grain), then cycle code
exists only in the raw-SQL `ReportQueryBuilder.build_report_query`. -/
theorem consolidated_ordering (deal_numbers : List Int) (tranche_ids : List String)
    (cycle_code : Int) (calculations : List Calculation) (aggregation_level : String)
    (ast : ConsolidatedAST)
    (h : QueryEngine_build_consolidated_query deal_numbers tranche_ids cycle_code
        calculations aggregation_level = Except.ok ast) :
    ast.orderBy = [] ∧
      (∀ (cfgs : List CalcConfig) (deals : List Int) (trs : List String) (cyc : Int),
        (ReportQueryBuilder_build_report_query cfgs "tranche" deals trs cyc).order_by
          = "ORDER BY d.dl_nbr, t.tr_id, tb.cycle_cde") ∧
      (∀ (cfgs : List CalcConfig) (lvl : String) (deals : List Int)
         (trs : List String) (cyc : Int), lvl ≠ "tranche" →
        (ReportQueryBuilder_build_report_query cfgs lvl deals trs cyc).order_by
          = "ORDER BY d.dl_nbr, tb.cycle_cde") := by
  refine ⟨?_, ?_, ?_⟩
  · unfold QueryEngine_build_consolidated_query at h
    rcases hb : buildCalcJoins deal_numbers tranche_ids cycle_code aggregation_level
        calculations with e | pr
    · rw [hb] at h
      exact absurd h (by simp)
    · rw [hb] at h
      obtain ⟨subs, cols⟩ := pr
      rw [← Except.ok.inj h]
  · intro cfgs deals trs cyc
    simp only [ReportQueryBuilder_build_report_query, if_pos rfl]
    decide
  · intro cfgs lvl deals trs cyc hlvl
    simp only [ReportQueryBuilder_build_report_query, hlvl, if_neg hlvl]
    decide

theorem consolidated_ordering_witness :
    QueryEngine_build_consolidated_query [101] ["A", "B"] 202404 [calcBalSum] "tranche"
        = Except.ok astC6 ∧
    (astC6.orderBy = [] ∧
      (∀ (cfgs : List CalcConfig) (deals : List Int) (trs : List String) (cyc : Int),
        (ReportQueryBuilder_build_report_query cfgs "tranche" deals trs cyc).order_by
          = "ORDER BY d.dl_nbr, t.tr_id, tb.cycle_cde") ∧
      (∀ (cfgs : List CalcConfig) (lvl : String) (deals : List Int)
         (trs : List String) (cyc : Int), lvl ≠ "tranche" →
        (ReportQueryBuilder_build_report_query cfgs lvl deals trs cyc).order_by
          = "ORDER BY d.dl_nbr, tb.cycle_cde")) :=
  ⟨by decide,
   consolidated_ordering [101] ["A", "B"] 202404 [calcBalSum] "tranche" astC6 (by decide)⟩

theorem buildCalcJoins_cols (deal_numbers : List Int) (tranche_ids : List String)
    (cycle_code : Int) (aggregation_level : String) :
    ∀ (cs : List Calculation) (subs : List SubqueryAST) (cols : List (String × String)),
      buildCalcJoins deal_numbers tranche_ids cycle_code aggregation_level cs
          = Except.ok (subs, cols) →
        cols = cs.map (fun c => (get_calc_column_name c.name, c.name)) ∧
          subs.length = cs.length := by
  intro cs
  induction cs with
  | nil =>
    intro subs cols h
    unfold buildCalcJoins at h
    injection Except.ok.inj h with h1 h2
    subst h1
    subst h2
    exact ⟨rfl, rfl⟩
  | cons c t ih =>
    intro subs cols h
    unfold buildCalcJoins at h
    rcases hq : QueryEngine_build_calculation_subquery c deal_numbers tranche_ids
        cycle_code aggregation_level with e | sub
    · rw [hq] at h
      exact absurd h (by simp)
    · rw [hq] at h
      rcases hrest : buildCalcJoins deal_numbers tranche_ids cycle_code
          aggregation_level t with e | pr
      · rw [hrest] at h
        exact absurd h (by simp)
      · rw [hrest] at h
        obtain ⟨subs2, cols2⟩ := pr
        injection Except.ok.inj h with h1 h2
        subst h1
        subst h2
        rcases ih subs2 cols2 hrest with ⟨hc, hl⟩
        constructor
        · simp [hc]
        · simp [hl]

theorem dictInsert_fresh (acc : List (String × SqlVal)) (k : String) (v : SqlVal)
    (hk : k ∉ acc.map Prod.fst) :
    dictInsert acc k v = acc ++ [(k, v)] := by
  unfold dictInsert
  have hany : acc.any (fun p => decide (p.1 = k)) = false := by
    rw [List.any_eq_false]
    intro p hp hkp
    exact hk ((of_decide_eq_true hkp) ▸ List.mem_map_of_mem Prod.fst hp)
  rw [hany]
  simp

theorem foldl_dictInsert_eq_map (f : Calculation → SqlVal) :
    ∀ (cs : List Calculation) (acc : List (String × SqlVal)),
      (cs.map Calculation.name).Nodup →
      (∀ x ∈ cs, x.name ∉ acc.map Prod.fst) →
      cs.foldl (fun a c => dictInsert a c.name (f c)) acc
        = acc ++ cs.map (fun c => (c.name, f c)) := by
  intro cs
  induction cs with
  | nil => intro acc _ _; simp
  | cons c t ih =>
    intro acc hnd hfresh
    simp only [List.map_cons, List.nodup_cons] at hnd
    simp only [List.foldl_cons]
    rw [dictInsert_fresh acc c.name (f c) (hfresh c (List.mem_cons_self c t))]
    rw [ih (acc ++ [(c.name, f c)]) hnd.2 ?follows]
    · simp
    case follows =>
      intro x hx
      simp only [List.map_append, List.mem_append]
      rintro (hxa | hxc)
      · exact hfresh x (List.mem_cons_of_mem c hx) hxa
      · simp only [List.map_cons, List.map_nil, List.mem_singleton] at hxc
        exact hnd.1 (hxc ▸ List.mem_map_of_mem Calculation.name hx)

/-- C9 counterexample: for the calculation named `3% Rate`, the subquery
column alias the query engine produces is `3%_rate` (lowercase, spaces and
hyphens underscored — not even SQL-safe), while the claimed transform
(`sanitize_identifier`) yields `calc_3_Rate`; the two disagree, so the alias
is not the sanitize-identifier of the name. -/
theorem alias_not_sanitized_counterexample :
    (QueryEngine_build_calculation_subquery calcPctRate [101] ["A"] 202404 "deal").map
        (fun a => a.aggAlias) = Except.ok "3%_rate" ∧
    sanitize_identifier "3% Rate" = "calc_3_Rate" ∧
    (Except.ok "3%_rate" : Except String String)
      ≠ Except.ok (sanitize_identifier "3% Rate") :=
  ⟨by decide, by decide, by decide⟩

/-- C9 (amended): the query engine's subquery column alias is the
calculation name lowercased with spaces and hyphens replaced by underscores
(`QueryEngine._get_calc_column_name`), not the claimed sanitize-identifier
transform, and the final output column is labelled with the raw display
name; the claimed transform lives in `shared/utils.sanitize_identifier` and
is used, as a verbatim copy, by `ReportQueryBuilder._sanitize_calc_name` in
the raw-SQL builder. -/
theorem alias_transform (c : Calculation) (deal_numbers : List Int)
    (tranche_ids : List String) (cycle_code : Int) (aggregation_level : String)
    (ast : SubqueryAST)
    (h : QueryEngine_build_calculation_subquery c deal_numbers tranche_ids cycle_code
        aggregation_level = Except.ok ast) :
    ast.aggAlias = get_calc_column_name c.name ∧
      (∀ (deals : List Int) (trs : List String) (cyc : Int) (cs : List Calculation)
         (lvl : String) (cast : ConsolidatedAST),
        QueryEngine_build_consolidated_query deals trs cyc cs lvl = Except.ok cast →
          cast.calcColumns = cs.map (fun x => (get_calc_column_name x.name, x.name))) ∧
      (∀ s : String, ReportQueryBuilder_sanitize_calc_name s = sanitize_identifier s) := by
  refine ⟨?_, ?_, fun s => rfl⟩
  · unfold QueryEngine_build_calculation_subquery at h
    rcases hf : c.get_sqlalchemy_function with e | agg
    · rw [hf] at h
      exact absurd h (by simp)
    · rw [hf] at h
      rw [← Except.ok.inj h]
  · intro deals trs cyc cs lvl cast hc
    unfold QueryEngine_build_consolidated_query at hc
    rcases hb : buildCalcJoins deals trs cyc lvl cs with e | pr
    · rw [hb] at hc
      exact absurd hc (by simp)
    · rw [hb] at hc
      obtain ⟨subs, cols⟩ := pr
      rw [← Except.ok.inj hc]
      exact (buildCalcJoins_cols deals trs cyc lvl cs subs cols hb).1

theorem alias_transform_witness :
    QueryEngine_build_calculation_subquery calcBalSum [101] ["A"] 202404 "tranche"
        = Except.ok astC5 ∧
    (astC5.aggAlias = get_calc_column_name calcBalSum.name ∧
      (∀ (deals : List Int) (trs : List String) (cyc : Int) (cs : List Calculation)
         (lvl : String) (cast : ConsolidatedAST),
        QueryEngine_build_consolidated_query deals trs cyc cs lvl = Except.ok cast →
          cast.calcColumns = cs.map (fun x => (get_calc_column_name x.name, x.name))) ∧
      (∀ s : String, ReportQueryBuilder_sanitize_calc_name s = sanitize_identifier s)) :=
  ⟨by decide,
   alias_transform calcBalSum [101] ["A"] 202404 "tranche" astC5 (by decide)⟩

/-- C10: the consolidated statement carries exactly one value column per
calculation, appended in the same order as the input list and labelled with
the calculation's name; and result materialization produces, for each raw
row, a values map holding an entry for every calculation in that same
order, whose value is the row's column value — null when the statement
returned no value for that calculation. -/
theorem consolidated_columns_materialization (deal_numbers : List Int)
    (tranche_ids : List String) (cycle_code : Int) (calculations : List Calculation)
    (aggregation_level : String) (ast : ConsolidatedAST)
    (h : QueryEngine_build_consolidated_query deal_numbers tranche_ids cycle_code
        calculations aggregation_level = Except.ok ast)
    (hnd : (calculations.map Calculation.name).Nodup) :
    ast.calcColumns.map Prod.snd = calculations.map Calculation.name ∧
      ast.calcColumns.length = calculations.length ∧
      ast.subqueries.length = calculations.length ∧
      (∀ (results : List ResultRow) (lvl : String),
        process_report_results results calculations lvl
          = results.map (fun result =>
              { dl_nbr := result.deal_number
                tr_id := if lvl = "tranche" then some result.tranche_id else none
                cycle_cde := result.cycle_code
                values := calculations.map
                  (fun c => (c.name, resultGetattr result c.name)) })) ∧
      (∀ (r : ResultRow) (nm : String),
        r.calcVals.find? (fun p => decide (p.1 = nm)) = none →
          resultGetattr r nm = SqlVal.null) := by
  have hcols : ast.calcColumns
        = calculations.map (fun x => (get_calc_column_name x.name, x.name)) ∧
      ast.subqueries.length = calculations.length := by
    unfold QueryEngine_build_consolidated_query at h
    rcases hb : buildCalcJoins deal_numbers tranche_ids cycle_code aggregation_level
        calculations with e | pr
    · rw [hb] at h
      exact absurd h (by simp)
    · rw [hb] at h
      obtain ⟨subs, cols⟩ := pr
      have hbc := buildCalcJoins_cols deal_numbers tranche_ids cycle_code
        aggregation_level calculations subs cols hb
      rw [← Except.ok.inj h]
      exact hbc
  refine ⟨?_, ?_, hcols.2, ?_, ?_⟩
  · rw [hcols.1, List.map_map]
    rfl
  · rw [hcols.1, List.length_map]
  · intro results lvl
    unfold process_report_results
    refine List.map_congr_left (fun result _ => ?_)
    have hfold := foldl_dictInsert_eq_map (fun c => resultGetattr result c.name)
      calculations [] hnd (by simp)
    rw [hfold]
    simp
  · intro r nm hfind
    unfold resultGetattr
    rw [hfind]

theorem consolidated_columns_materialization_witness :
    (QueryEngine_build_consolidated_query [101] ["A", "B"] 202404
        [calcDealCount, calcBalSum] "deal" = Except.ok astC2 ∧
      ([calcDealCount, calcBalSum].map Calculation.name).Nodup) ∧
    (astC2.calcColumns.map Prod.snd = [calcDealCount, calcBalSum].map Calculation.name ∧
      astC2.calcColumns.length = [calcDealCount, calcBalSum].length ∧
      astC2.subqueries.length = [calcDealCount, calcBalSum].length ∧
      (∀ (results : List ResultRow) (lvl : String),
        process_report_results results [calcDealCount, calcBalSum] lvl
          = results.map (fun result =>
              { dl_nbr := result.deal_number
                tr_id := if lvl = "tranche" then some result.tranche_id else none
                cycle_cde := result.cycle_code
                values := [calcDealCount, calcBalSum].map
                  (fun c => (c.name, resultGetattr result c.name)) })) ∧
      (∀ (r : ResultRow) (nm : String),
        r.calcVals.find? (fun p => decide (p.1 = nm)) = none →
          resultGetattr r nm = SqlVal.null)) :=
  ⟨⟨by decide, by decide⟩,
   consolidated_columns_materialization [101] ["A", "B"] 202404
     [calcDealCount, calcBalSum] "deal" astC2 (by decide) (by decide)⟩

/-- C8 counterexample: with the base enumeration returning one row and the
scalar statement of `Calc B` failing with a database error, report execution
still returns a successful result whose row carries `Calc A`'s computed
value (and null for `Calc B`), and logs a successful one-row execution —
not a typed error with zero rows. -/
theorem execution_partial_rows_counterexample :
    scalar8 101 202404 calcB8 = Except.error "database error" ∧
    ReportService_execute_report (Except.ok [(101, 202404)]) [calcA8, calcB8] scalar8
      = { log := { success := true, row_count := 1 },
          result := Except.ok
            [{ dl_nbr := 101, tr_id := none, cycle_cde := 202404,
               values := [("Calc A", SqlVal.num 5), ("Calc B", SqlVal.null)] }] } :=
  ⟨rfl, rfl⟩

/-- C8 (amended): a failure of the base-enumeration statement surfaces as a
`ReportGenerationError` wrapping the underlying error, with a failed
execution log of zero rows; but a failure of an individual calculation's
scalar statement is caught inside the row loop — that calculation's value
becomes null and the row set, including the other calculations' computed
values, is still returned as a successful execution. -/
theorem report_execution_error_policy (e : String) (base_rows : List (Int × Int))
    (calculations : List Calculation)
    (scalar : Int → Int → Calculation → Except String SqlVal)
    (hnd : (calculations.map Calculation.name).Nodup) :
    ReportService_execute_report (Except.error e) calculations scalar
        = { log := { success := false, row_count := 0 },
            result := Except.error ("Report execution failed: " ++ e) } ∧
      ReportService_execute_report (Except.ok base_rows) calculations scalar
        = { log := { success := true,
                     row_count := (execDealLevelRows base_rows calculations scalar).length },
            result := Except.ok (execDealLevelRows base_rows calculations scalar) } ∧
      execDealLevelRows base_rows calculations scalar
        = base_rows.map (fun p =>
            { dl_nbr := p.1, tr_id := none, cycle_cde := p.2,
              values := calculations.map (fun c => (c.name,
                match scalar p.1 p.2 c with
                | Except.ok v => v
                | Except.error _ => SqlVal.null)) }) := by
  refine ⟨rfl, rfl, ?_⟩
  unfold execDealLevelRows
  refine List.map_congr_left (fun p _ => ?_)
  have hfun : (fun (acc : List (String × SqlVal)) c =>
        match scalar p.1 p.2 c with
        | Except.ok v => dictInsert acc c.name v
        | Except.error _ => dictInsert acc c.name SqlVal.null)
      = (fun (acc : List (String × SqlVal)) c => dictInsert acc c.name
          (match scalar p.1 p.2 c with
           | Except.ok v => v
           | Except.error _ => SqlVal.null)) := by
    funext acc c
    cases scalar p.1 p.2 c <;> rfl
  rw [hfun]
  have hfold := foldl_dictInsert_eq_map
    (fun c => match scalar p.1 p.2 c with
      | Except.ok v => v
      | Except.error _ => SqlVal.null) calculations [] hnd (by simp)
  rw [hfold]
  simp

theorem report_execution_error_policy_witness :
    (([calcA8, calcB8].map Calculation.name).Nodup) ∧
    (ReportService_execute_report (Except.error "connection lost") [calcA8, calcB8] scalar8
        = { log := { success := false, row_count := 0 },
            result := Except.error ("Report execution failed: " ++ "connection lost") } ∧
      ReportService_execute_report (Except.ok [(101, 202404)]) [calcA8, calcB8] scalar8
        = { log := { success := true,
                     row_count := (execDealLevelRows [(101, 202404)] [calcA8, calcB8]
                       scalar8).length },
            result := Except.ok (execDealLevelRows [(101, 202404)] [calcA8, calcB8]
              scalar8) } ∧
      execDealLevelRows [(101, 202404)] [calcA8, calcB8] scalar8
        = [((101 : Int), (202404 : Int))].map (fun p =>
            { dl_nbr := p.1, tr_id := none, cycle_cde := p.2,
              values := [calcA8, calcB8].map (fun c => (c.name,
                match scalar8 p.1 p.2 c with
                | Except.ok v => v
                | Except.error _ => SqlVal.null)) })) :=
  ⟨by decide,
   report_execution_error_policy "connection lost" [(101, 202404)] [calcA8, calcB8]
     scalar8 (by decide)⟩

/-- C1: at the concrete fixture warehouse and filter with a single SUM
calculation, the report SQL preview renders one consolidated LEFT JOIN
statement, while report execution issues a base-enumeration statement
followed by one scalar aggregate statement per (base row, calculation) and
never the consolidated statement: the executed statement sequence is not
the singleton preview statement. -/
theorem preview_execution_divergence :
    previewReportStatementDealLevel [101] ["A", "B"] 202404 [calcBalSum]
        = Except.ok (ExecutedStmt.consolidatedStmt astC1) ∧
    (executedStatementsDealLevel dbW [101] ["A", "B"] 202404 [calcBalSum]).head?
        = some (ExecutedStmt.baseEnumDealStmt [101] ["A", "B"] 202404) ∧
    executedStatementsDealLevel dbW [101] ["A", "B"] 202404 [calcBalSum]
      ≠ [ExecutedStmt.consolidatedStmt astC1] :=
  ⟨by decide, by decide, by decide⟩
